import Mathlib

/-!
Shallow embedding of the distributed S3 scan-coordination protocol implemented
in `src/Storages/StorageS3Distributed.cpp`:

* the cluster/address model and the two nested-loop hash scans performed in
  `StorageS3Distributed::read` (worker-side initiator lookup, initiator-side
  self lookup);
* the query-rewrite pass that overwrites the bucket literal of the registered
  table-function invocation with the initiator's identity hash;
* the worker-side `StorageS3SequentialSource` pull loop
  (`askAboutNextKey`, `createOrUpdateInnerSource`, `generate`);
* the initiator-side serving of NextTaskRequest pulls (modelled from the
  spec, since its code is not among these source files).

Machine state that C++ mutates in place (the inner reader, the remaining
channel events, the exception log) is threaded explicitly through a
`SeqSource` record; the counters `pulls` and `readers_created` record the
side effects (one channel round trip per `askAboutNextKey` call, one reader
construction per non-empty key) that the corresponding C++ statements perform.
-/

namespace DB

/-! ### Cluster model (`Cluster::Address`) -/

structure Address where
  host_name : String
  port : Nat
  user : String
  password : String
  cluster : String
  cluster_secret : String
  is_local : Bool
  hash : String
  deriving DecidableEq

/-- A default-constructed `Cluster::Address`, as produced by
`Cluster::Address initiator;` before the lookup loop assigns to it. -/
def defaultAddress : Address :=
  { host_name := "", port := 0, user := "", password := "", cluster := "",
    cluster_secret := "", is_local := false, hash := "" }

/-- The shared shape of the two nested lookup loops in
`StorageS3Distributed::read`: for each shard's replica list the inner loop
assigns from the first replica satisfying `p` and then does `break` — which
exits only the inner loop, so a later shard with a match overwrites the
accumulator. -/
def lastMatchFold (p : Address → Bool) (f : Address → α) (acc0 : α)
    (shards : List (List Address)) : α :=
  shards.foldl (fun acc replicas =>
    match replicas.find? p with
    | some node => f node
    | none => acc) acc0

/-- Initiator-side self lookup (lines 293-300): scan for a node that
`is_local` and listens on the session's TCP port, keeping its `getHash()`;
`hash_of_address` starts out empty. -/
def findSelfHash (shards : List (List Address)) (tcpPort : Nat) : String :=
  lastMatchFold (fun node => node.is_local && node.port == tcpPort)
    (fun node => node.hash) "" shards

/-- Worker-side initiator lookup (lines 248-256): scan for a node whose
`getHash()` equals the hash received in the rewritten query's bucket slot;
`initiator` starts out default-constructed. -/
def findInitiator (shards : List (List Address)) (receivedHash : String) : Address :=
  lastMatchFold (fun node => node.hash == receivedHash) id defaultAddress shards

/-- The `ConnectionPool` the worker builds toward the resolved initiator
(constructor, lines 103-112). -/
structure ConnectionPoolConfig where
  max_connections : Nat
  host : String
  port : Nat
  user : String
  password : String
  cluster : String
  cluster_secret : String
  deriving DecidableEq

/-- Worker-mode part of `StorageS3Distributed::read` up to the construction of
the sequential source's connection pool: resolve the initiator from the
embedded hash and point a pool of 3 connections at it.  This path contains no
throw: an unresolved or ambiguous hash is not detected. -/
def workerReadPool (shards : List (List Address)) (address_hash_or_filename : String)
    (initial_user : String) : ConnectionPoolConfig :=
  let initiator := findInitiator shards address_hash_or_filename
  { max_connections := 3, host := initiator.host_name, port := initiator.port,
    user := initial_user, password := initiator.password,
    cluster := initiator.cluster, cluster_secret := initiator.cluster_secret }

/-! ### Query model and the rewrite pass -/

/-- A table-function invocation; `arguments` models
`table_function_ast->children.at(0)->children`, the positional literal
arguments (only string literals are relevant here). -/
structure TableFunction where
  name : String
  arguments : List String
  deriving DecidableEq

/-- `IAST::getTreeHash` is a collision-free structural hash of the subtree;
in the embedding structural identity is the structure itself. -/
def getTreeHash (f : TableFunction) : String × List String :=
  (f.name, f.arguments)

/-- One element of `getTableExpressions(...)`. -/
structure TableExpression where
  table_function : TableFunction
  deriving DecidableEq

/-- The cloned query AST: its table expressions plus the remaining tokens of
the query text (select list, predicates, ...) that the rewrite never touches. -/
structure SelectQuery where
  tables : List TableExpression
  rest : List String
  deriving DecidableEq

/-- `queryToString`: the token multiset of the rendered query — the untouched
tokens plus, for each table expression, the function name followed by its
positional literal arguments. -/
def queryToString (q : SelectQuery) : List String :=
  q.rest ++ q.tables.flatMap (fun te => te.table_function.name :: te.table_function.arguments)

/-- The rewrite loop (lines 310-325): walk the table expressions in order;
at the first one whose tree hash equals the captured `tree_hash`, overwrite
the second positional literal (`arguments[1]`, the bucket slot) with the
initiator's hash and `break`.  `none` models falling through with
`remote_query` still empty. -/
def rewriteLoop (tree_hash : String × List String) (selfHash : String) :
    List TableExpression → Option (List TableExpression)
  | [] => none
  | te :: restTables =>
    if getTreeHash te.table_function = tree_hash then
      some ({ table_function :=
                { name := te.table_function.name,
                  arguments := te.table_function.arguments.set 1 selfHash } } :: restTables)
    else
      match rewriteLoop tree_hash selfHash restTables with
      | none => none
      | some restTables2 => some (te :: restTables2)

/-- The two exceptions the initiator path of `read` can throw, both with
`ErrorCodes::LOGICAL_ERROR`. -/
inductive ReadError where
  | couldNotFindSelf
  | noTableFunction
  deriving DecidableEq

/-- Observable outcome of the initiator path of `read`: the exception (if
any), the value of `hash_of_address`, the rewritten query tokens, and the
per-replica `Connection`s created (one per node, lines 338-350). -/
structure InitiatorReadResult where
  error : Option ReadError
  hash_of_address : String
  remote_query : List String
  connections : List Address
  deriving DecidableEq

/-- Initiator-side part of `StorageS3Distributed::read` (lines 291-368):
self lookup, throw if `hash_of_address` is empty, rewrite pass, throw if
`remote_query` is empty, then one connection per replica of every shard.
A throw leaves `connections` empty: the code throws before the fan-out loop. -/
def initiatorRead (shards : List (List Address)) (tcpPort : Nat)
    (query : SelectQuery) (tree_hash : String × List String) : InitiatorReadResult :=
  let hash_of_address := findSelfHash shards tcpPort
  if hash_of_address = "" then
    { error := some ReadError.couldNotFindSelf, hash_of_address := hash_of_address,
      remote_query := [], connections := [] }
  else
    let remote_query :=
      match rewriteLoop tree_hash hash_of_address query.tables with
      | none => []
      | some tables2 => queryToString { tables := tables2, rest := query.rest }
    if remote_query = [] then
      { error := some ReadError.noTableFunction, hash_of_address := hash_of_address,
        remote_query := [], connections := [] }
    else
      { error := none, hash_of_address := hash_of_address,
        remote_query := remote_query, connections := shards.flatten }

/-! ### Worker scan source (`StorageS3SequentialSource`) -/

/-- `ClientAuthentificationBuilder`: the immutable per-query auth context. -/
structure ClientAuthentificationBuilder where
  access_key_id : String
  secret_access_key : String
  max_connections : Nat
  deriving DecidableEq

/-- `StorageS3::ClientAuthentificaiton` as built in
`createOrUpdateInnerSource`: the key's URI combined with the auth context. -/
structure ClientAuthentification where
  uri : String
  access_key_id : String
  secret_access_key : String
  max_connections : Nat
  deriving DecidableEq

/-- The construction
`StorageS3::ClientAuthentificaiton{next_uri, access_key_id, secret_access_key, max_connections, ..}`. -/
def mkClientAuth (b : ClientAuthentificationBuilder) (uri : String) : ClientAuthentification :=
  { uri := uri, access_key_id := b.access_key_id,
    secret_access_key := b.secret_access_key, max_connections := b.max_connections }

/-- `StorageS3SourceBuilder`: the immutable per-query source descriptor shared
by every per-object reader (format, schema, block size, compression hint). -/
structure StorageS3SourceBuilder where
  need_path : Bool
  need_file : Bool
  format : String
  name : String
  max_block_size : Nat
  compression_method : String
  deriving DecidableEq

/-- A per-object reader (`StorageS3Source`): the scoped client authorization
it was built with, the shared descriptor, its key, and the chunks it will
still yield (`[]` once exhausted; an exhausted reader keeps yielding the
empty chunk). -/
structure StorageS3Source where
  client_auth : ClientAuthentification
  builder : StorageS3SourceBuilder
  key : String
  chunks : List Nat
  deriving DecidableEq

/-- `inner->generate()`: next chunk (row count) or the empty chunk `0`. -/
def sourceGenerate : StorageS3Source → Nat × StorageS3Source
  | { client_auth := a, builder := b, key := k, chunks := [] } =>
    (0, { client_auth := a, builder := b, key := k, chunks := [] })
  | { client_auth := a, builder := b, key := k, chunks := c :: cs } =>
    (c, { client_auth := a, builder := b, key := k, chunks := cs })

/-- What one round trip over the task pull channel can deliver to the worker:
a reply packet (with its protocol type field and `next_task` payload), or a
transport-level failure during connection acquisition, send or receive. -/
inductive PullEvent where
  | packet (ptype : Nat) (next_task : String)
  | transportError (e : Nat)
  deriving DecidableEq

/-- Outcome of `askAboutNextKey`: the returned key, or the re-raised
transport exception. -/
inductive PullResult where
  | ok (task : String)
  | err (e : Nat)
  deriving DecidableEq

/-- The worker source's explicit state: the fields of
`StorageS3SequentialSource` (`initial_query_id`, the two builders, `inner`)
plus the channel (the initiator's pending replies; an empty list means the
initiator is exhausted and answers every further pull with the empty string),
the exception log, and the side-effect counters. -/
structure SeqSource where
  initial_query_id : String
  cli_builder : ClientAuthentificationBuilder
  s3_source_builder : StorageS3SourceBuilder
  inner : Option StorageS3Source
  events : List PullEvent
  pulls : Nat
  readers_created : Nat
  log : List Nat
  deriving DecidableEq

/-- `askAboutNextKey` (lines 140-156): get a pooled connection, send
NextTaskRequest, receive the reply packet and return its `next_task`.  The
line `assert(packet.type = Protocol::Server::NextTaskReply)` ASSIGNS instead
of comparing, so it always passes in debug builds and is absent in release
builds: the packet's type field is never checked and does not influence the
result.  A transport failure is appended to the log
(`tryLogCurrentException`) and re-raised (`throw;`).  Every call performs one
round trip, counted in `pulls`. -/
def askAboutNextKey (st : SeqSource) : PullResult × SeqSource :=
  match st.events with
  | [] =>
    (PullResult.ok "", { st with pulls := st.pulls + 1 })
  | PullEvent.packet _ptype next_task :: restEvents =>
    (PullResult.ok next_task, { st with events := restEvents, pulls := st.pulls + 1 })
  | PullEvent.transportError e :: restEvents =>
    (PullResult.err e,
      { st with events := restEvents, pulls := st.pulls + 1, log := st.log ++ [e] })

/-- Outcome of `createOrUpdateInnerSource`: its boolean return value, or the
exception propagating out of `askAboutNextKey`. -/
inductive CreateResult where
  | value (b : Bool)
  | raised (e : Nat)
  deriving DecidableEq

/-- `createOrUpdateInnerSource` (lines 158-189): pull the next key; the empty
string returns `false` WITHOUT touching `inner` and without constructing
anything; a non-empty key builds a fresh `ClientAuthentificaiton` from the
auth context and the key's URI, then replaces `inner` with a fresh
`StorageS3Source` over the shared descriptor and that key (the previous
reader, if any, is released by the `unique_ptr` assignment), and returns
`true`.  `objects` maps a key to the chunks its object yields. -/
def createOrUpdateInnerSource (objects : String → List Nat) (st : SeqSource) :
    CreateResult × SeqSource :=
  match askAboutNextKey st with
  | (PullResult.err e, st2) => (CreateResult.raised e, st2)
  | (PullResult.ok next_string, st2) =>
    if next_string = "" then
      (CreateResult.value false, st2)
    else
      let client_auth := mkClientAuth st2.cli_builder next_string
      (CreateResult.value true,
        { st2 with
            inner := some { client_auth := client_auth,
                            builder := st2.s3_source_builder,
                            key := next_string,
                            chunks := objects next_string },
            readers_created := st2.readers_created + 1 })

/-- Outcome of `generate`: a chunk (possibly the empty chunk `0`), or a
propagating exception. -/
inductive GenResult where
  | chunk (rows : Nat)
  | raised (e : Nat)
  deriving DecidableEq

/-- `generate` (lines 122-136): with no inner reader return the empty chunk
immediately (no channel contact); otherwise ask the current reader for a
chunk; if that chunk is empty, call `createOrUpdateInnerSource` — on `false`
return the empty chunk, on `true` return one chunk of the fresh reader.
Note that the `false` branch leaves the exhausted `inner` in place. -/
def generate (objects : String → List Nat) (st : SeqSource) : GenResult × SeqSource :=
  match st.inner with
  | none => (GenResult.chunk 0, st)
  | some s =>
    let r := sourceGenerate s
    let st1 := { st with inner := some r.2 }
    if r.1 = 0 then
      match createOrUpdateInnerSource objects st1 with
      | (CreateResult.raised e, st2) => (GenResult.raised e, st2)
      | (CreateResult.value false, st2) => (GenResult.chunk 0, st2)
      | (CreateResult.value true, st2) =>
        match st2.inner with
        | none => (GenResult.chunk 0, st2)
        | some s2 =>
          let r2 := sourceGenerate s2
          (GenResult.chunk r2.1, { st2 with inner := some r2.2 })
    else
      (GenResult.chunk r.1, st1)

/-- The `StorageS3SequentialSource` constructor (lines 93-115): start with no
inner reader and call `createOrUpdateInnerSource` once. -/
def mkSeqSource (objects : String → List Nat) (qid : String)
    (cli : ClientAuthentificationBuilder) (s3b : StorageS3SourceBuilder)
    (events : List PullEvent) : CreateResult × SeqSource :=
  createOrUpdateInnerSource objects
    { initial_query_id := qid, cli_builder := cli, s3_source_builder := s3b,
      inner := none, events := events, pulls := 0, readers_created := 0, log := [] }

/-- Iterate `generate`, keeping the state, to talk about every subsequent row
request. -/
def genIter (objects : String → List Nat) : Nat → SeqSource → SeqSource
  | 0, st => st
  | n + 1, st => genIter objects n (generate objects st).2

/-! ### Initiator-side task serving -/

/-- Modelled from the spec: the initiator-side handler of NextTaskRequest is
not among these source files (only the worker-side caller is); per the spec,
each pull atomically takes the next key of the initiator's key-listing
sequence, or observes exhaustion as the empty string, under mutual
exclusion. -/
def servePull : List String → String × List String
  | [] => ("", [])
  | k :: restKeys => (k, restKeys)

/-- Modelled from the spec: an arbitrary interleaving of concurrently-pulling
workers is a schedule of worker ids; the pulls are served atomically in
schedule order, each recorded as (worker, reply). -/
def serveAll (keys : List String) : List Nat → List (Nat × String)
  | [] => []
  | w :: ws =>
    let r := servePull keys
    (w, r.1) :: serveAll r.2 ws

/-! ### Concrete data for witnesses and counterexamples -/

def exAddrA : Address :=
  { host_name := "hostA", port := 1, user := "u", password := "p", cluster := "c",
    cluster_secret := "cs", is_local := false, hash := "H123" }

def exAddrB : Address :=
  { host_name := "hostB", port := 2, user := "u", password := "p", cluster := "c",
    cluster_secret := "cs", is_local := false, hash := "H123" }

def exSelf : Address :=
  { host_name := "me", port := 9000, user := "u", password := "p", cluster := "c",
    cluster_secret := "cs", is_local := true, hash := "H123" }

def exTF : TableFunction :=
  { name := "s3Distributed", arguments := ["cluster1", "real-bucket", "CSV"] }

def exQuery : SelectQuery :=
  { tables := [{ table_function := exTF }], rest := ["SELECT", "*"] }

/-- A query that also mentions the bucket string outside the table-function
invocation (e.g. in its select list). -/
def exQueryDup : SelectQuery :=
  { tables := [{ table_function := exTF }], rest := ["SELECT", "real-bucket"] }

def exCli : ClientAuthentificationBuilder :=
  { access_key_id := "AK", secret_access_key := "SK", max_connections := 5 }

def exS3B : StorageS3SourceBuilder :=
  { need_path := false, need_file := false, format := "CSV",
    name := "StorageS3Distributed", max_block_size := 8192,
    compression_method := "auto" }

/-- A worker-source state with the given channel events and inner reader. -/
def exState (events : List PullEvent) (inner : Option StorageS3Source) : SeqSource :=
  { initial_query_id := "q1", cli_builder := exCli, s3_source_builder := exS3B,
    inner := inner, events := events, pulls := 0, readers_created := 0, log := [] }

/-- An object store with a single one-chunk object under key "k1". -/
def exObjects : String → List Nat := fun k => if k = "k1" then [5] else []

/-- The worker source right after its constructor has pulled the single key
"k1": the channel is already drained. -/
def exS0 : SeqSource :=
  (mkSeqSource exObjects "q1" exCli exS3B [PullEvent.packet 10 "k1"]).2

/-- After the first row request: the single chunk of "k1" was delivered. -/
def exS1 : SeqSource := (generate exObjects exS0).2

/-- After the second row request: the reader was exhausted, so this request
pulled the channel, the pull returned the empty string, and the request
returned the empty chunk. -/
def exS2 : SeqSource := (generate exObjects exS1).2

/-- The configuration reached once a pull has returned the empty string: the
channel is exhausted (it answers every further pull with the empty string)
and the current reader, if any, yields no more rows. -/
def Exhausted (st : SeqSource) : Prop :=
  st.events = [] ∧ (st.inner = none ∨ ∃ s, st.inner = some s ∧ s.chunks = [])

/-! ### Helper lemmas -/

theorem find?_eq_head?_of_filter (p : α → Bool) (l : List α) :
    l.find? p = (l.filter p).head? := by
  induction l with
  | nil => rfl
  | cons a t ih =>
    cases hpa : p a with
    | true => rw [List.find?_cons_of_pos _ hpa, List.filter_cons_of_pos hpa, List.head?_cons]
    | false =>
      rw [List.find?_cons_of_neg _ (by simp [hpa]), List.filter_cons_of_neg (by simp [hpa]), ih]

theorem lastMatchFold_cons (p : Address → Bool) (f : Address → α) (acc0 : α)
    (r : List Address) (rs : List (List Address)) :
    lastMatchFold p f acc0 (r :: rs)
      = lastMatchFold p f (match r.find? p with | some n => f n | none => acc0) rs := by
  simp [lastMatchFold, List.foldl_cons]

theorem lastMatchFold_of_no_match (p : Address → Bool) (f : Address → α) (acc0 : α)
    (shards : List (List Address)) (h : ∀ a ∈ shards.flatten, p a = false) :
    lastMatchFold p f acc0 shards = acc0 := by
  induction shards generalizing acc0 with
  | nil => rfl
  | cons r rs ih =>
    have hr : r.find? p = none := by
      apply List.find?_eq_none.mpr
      intro x hx
      simp [h x (by simp [List.flatten_cons]; exact Or.inl hx)]
    rw [lastMatchFold_cons, hr]
    exact ih acc0 (fun a ha => h a (by simp [List.flatten_cons]; exact Or.inr (by simpa using ha)))

theorem lastMatchFold_of_unique (p : Address → Bool) (f : Address → α) (acc0 : α)
    (shards : List (List Address)) (n : Address)
    (h : shards.flatten.filter p = [n]) :
    lastMatchFold p f acc0 shards = f n := by
  induction shards generalizing acc0 with
  | nil => simp at h
  | cons r rs ih =>
    rw [List.flatten_cons, List.filter_append] at h
    rcases hr : r.filter p with _ | ⟨a, t⟩
    · rw [hr, List.nil_append] at h
      have hfind : r.find? p = none := by
        rw [find?_eq_head?_of_filter, hr]; rfl
      rw [lastMatchFold_cons, hfind]
      exact ih acc0 h
    · rw [hr, List.cons_append] at h
      injection h with h1 h2
      have hfind : r.find? p = some n := by
        rw [find?_eq_head?_of_filter, hr, h1]; rfl
      rw [lastMatchFold_cons, hfind]
      have hrest : rs.flatten.filter p = [] := (List.append_eq_nil.mp h2).2
      exact lastMatchFold_of_no_match p f (f n) rs
        (fun a2 ha2 => by
          have := List.filter_eq_nil_iff.mp hrest a2 ha2
          simpa using this)

theorem rewriteLoop_eq_none_iff (tree_hash : String × List String) (selfHash : String)
    (ts : List TableExpression) :
    rewriteLoop tree_hash selfHash ts = none
      ↔ ∀ te ∈ ts, getTreeHash te.table_function ≠ tree_hash := by
  induction ts with
  | nil => simp [rewriteLoop]
  | cons te rest ih =>
    by_cases h : getTreeHash te.table_function = tree_hash
    · simp [rewriteLoop, h]
    · rcases hrec : rewriteLoop tree_hash selfHash rest with _ | ts2
      · simp only [rewriteLoop, if_neg h, hrec]
        constructor
        · intro _ te2 hte2
          rcases List.mem_cons.mp hte2 with rfl | hmem
          · exact h
          · exact (ih.mp hrec) te2 hmem
        · intro _; trivial
      · simp only [rewriteLoop, if_neg h, hrec]
        constructor
        · intro hcontra; exact absurd hcontra (by simp)
        · intro hall
          have hn : rewriteLoop tree_hash selfHash rest = none :=
            ih.mpr (fun te2 hte2 => hall te2 (List.mem_cons_of_mem te hte2))
          rw [hn] at hrec
          exact absurd hrec (by simp)

theorem rewriteLoop_cons_of_hit (tree_hash : String × List String) (selfHash : String)
    (te : TableExpression) (post : List TableExpression)
    (h : getTreeHash te.table_function = tree_hash) :
    rewriteLoop tree_hash selfHash (te :: post)
      = some ({ table_function :=
                  { name := te.table_function.name,
                    arguments := te.table_function.arguments.set 1 selfHash } } :: post) := by
  simp [rewriteLoop, h]

theorem rewriteLoop_append_of_miss (tree_hash : String × List String) (selfHash : String)
    (pre l : List TableExpression)
    (h : ∀ te ∈ pre, getTreeHash te.table_function ≠ tree_hash) :
    rewriteLoop tree_hash selfHash (pre ++ l)
      = (rewriteLoop tree_hash selfHash l).map (fun l2 => pre ++ l2) := by
  induction pre with
  | nil => simp
  | cons te rest ih =>
    have hne : getTreeHash te.table_function ≠ tree_hash := h te (List.mem_cons_self te rest)
    rw [List.cons_append, rewriteLoop, if_neg hne,
      ih (fun te2 hte2 => h te2 (List.mem_cons_of_mem te hte2))]
    rcases rewriteLoop tree_hash selfHash l with _ | l2 <;> simp

theorem rewriteLoop_some_shape (tree_hash : String × List String) (selfHash : String)
    (ts ts2 : List TableExpression) (h : rewriteLoop tree_hash selfHash ts = some ts2) :
    ∃ a l, ts2 = a :: l := by
  induction ts generalizing ts2 with
  | nil => simp [rewriteLoop] at h
  | cons te rest ih =>
    by_cases hh : getTreeHash te.table_function = tree_hash
    · rw [rewriteLoop_cons_of_hit _ _ _ _ hh] at h
      exact ⟨_, _, (Option.some.injEq _ _ ▸ h).symm⟩
    · rw [rewriteLoop, if_neg hh] at h
      rcases hrec : rewriteLoop tree_hash selfHash rest with _ | l2
      · rw [hrec] at h; simp at h
      · rw [hrec] at h
        simp only [Option.some.injEq] at h
        exact ⟨te, l2, h.symm⟩

theorem queryToString_cons_ne_nil (te : TableExpression) (ts : List TableExpression)
    (rest : List String) :
    queryToString { tables := te :: ts, rest := rest } ≠ [] := by
  simp [queryToString]

theorem initiatorRead_of_none (shards : List (List Address)) (tcpPort : Nat)
    (query : SelectQuery) (tree_hash : String × List String)
    (h : findSelfHash shards tcpPort ≠ "")
    (hrw : rewriteLoop tree_hash (findSelfHash shards tcpPort) query.tables = none) :
    initiatorRead shards tcpPort query tree_hash =
      { error := some ReadError.noTableFunction,
        hash_of_address := findSelfHash shards tcpPort,
        remote_query := [], connections := [] } := by
  simp [initiatorRead, if_neg h, hrw]

theorem initiatorRead_of_some (shards : List (List Address)) (tcpPort : Nat)
    (query : SelectQuery) (tree_hash : String × List String)
    (tables2 : List TableExpression)
    (h : findSelfHash shards tcpPort ≠ "")
    (hrw : rewriteLoop tree_hash (findSelfHash shards tcpPort) query.tables = some tables2) :
    initiatorRead shards tcpPort query tree_hash =
      { error := none, hash_of_address := findSelfHash shards tcpPort,
        remote_query := queryToString { tables := tables2, rest := query.rest },
        connections := shards.flatten } := by
  obtain ⟨a, l, rfl⟩ := rewriteLoop_some_shape _ _ _ _ hrw
  simp [initiatorRead, if_neg h, hrw, if_neg (queryToString_cons_ne_nil a l query.rest)]

theorem sourceGenerate_of_nil (s : StorageS3Source) (h : s.chunks = []) :
    sourceGenerate s = (0, s) := by
  rcases s with ⟨a, b, k, chunks⟩
  cases h
  rfl

theorem setInner_self (st : SeqSource) (s : StorageS3Source) (h : st.inner = some s) :
    { st with inner := some s } = st := by
  cases st
  cases h
  rfl

theorem askAboutNextKey_of_nil (st : SeqSource) (h : st.events = []) :
    askAboutNextKey st = (PullResult.ok "", { st with pulls := st.pulls + 1 }) := by
  simp [askAboutNextKey, h]

theorem createOrUpdate_of_nil (objects : String → List Nat) (st : SeqSource)
    (h : st.events = []) :
    createOrUpdateInnerSource objects st
      = (CreateResult.value false, { st with pulls := st.pulls + 1 }) := by
  simp [createOrUpdateInnerSource, askAboutNextKey_of_nil st h]

theorem generate_of_inner_none (objects : String → List Nat) (st : SeqSource)
    (h : st.inner = none) :
    generate objects st = (GenResult.chunk 0, st) := by
  simp [generate, h]

theorem genIter_of_inner_none (objects : String → List Nat) (st : SeqSource)
    (h : st.inner = none) : ∀ n, genIter objects n st = st := by
  intro n
  induction n with
  | zero => rfl
  | succ m ih =>
    show genIter objects m (generate objects st).2 = st
    rw [generate_of_inner_none objects st h]
    exact ih

theorem generate_exhausted_step (objects : String → List Nat) (st : SeqSource)
    (h : Exhausted st) :
    (generate objects st).1 = GenResult.chunk 0
    ∧ Exhausted (generate objects st).2
    ∧ (generate objects st).2.inner = st.inner
    ∧ (st.inner = none → (generate objects st).2 = st)
    ∧ (∀ s, st.inner = some s → (generate objects st).2.pulls = st.pulls + 1) := by
  rcases h with ⟨hev, hnone | ⟨s, hs, hch⟩⟩
  · rw [generate_of_inner_none objects st hnone]
    exact ⟨rfl, ⟨hev, Or.inl hnone⟩, rfl, fun _ => rfl,
      fun s hcontra => absurd (hnone ▸ hcontra) (by simp)⟩
  · have hgen : generate objects st
        = (GenResult.chunk 0, { st with pulls := st.pulls + 1 }) := by
      simp only [generate, hs, sourceGenerate_of_nil s hch, setInner_self st s hs,
        createOrUpdate_of_nil objects st hev, eq_self_iff_true, if_true]
    rw [hgen]
    refine ⟨rfl, ⟨hev, Or.inr ⟨s, hs, hch⟩⟩, hs ▸ rfl, ?_, fun _ _ => rfl⟩
    intro hcontra
    exact absurd (hcontra ▸ hs) (by simp)

theorem genIter_exhausted (objects : String → List Nat) (st : SeqSource)
    (h : Exhausted st) : ∀ n, Exhausted (genIter objects n st) := by
  intro n
  induction n generalizing st with
  | zero => exact h
  | succ m ih =>
    show Exhausted (genIter objects m (generate objects st).2)
    exact ih (generate objects st).2 (generate_exhausted_step objects st h).2.1

theorem serveAll_snd (keys : List String) (sched : List Nat) :
    (serveAll keys sched).map Prod.snd
      = keys.take sched.length ++ List.replicate (sched.length - keys.length) "" := by
  induction sched generalizing keys with
  | nil => simp [serveAll]
  | cons w ws ih =>
    cases keys with
    | nil => simp [serveAll, servePull, ih, List.replicate_succ]
    | cons k t => simp [serveAll, servePull, ih, Nat.succ_sub_succ]

/-! ### Claim theorems -/

/-- C2, counterexample: the worker-side resolution loop does not treat zero or
multiple hash matches as fatal.  With two distinct topology entries both
hashed "H123" it silently returns the second one (the inner `break` leaves
the outer loop running) and the worker proceeds to build its connection pool
toward it; with zero matches it proceeds with the default-constructed
address.  No failure of any kind is raised on this path. -/
theorem c2_counterexample :
    exAddrA ≠ exAddrB
    ∧ exAddrA.hash = "H123" ∧ exAddrB.hash = "H123"
    ∧ findInitiator [[exAddrA], [exAddrB]] "H123" = exAddrB
    ∧ (workerReadPool [[exAddrA], [exAddrB]] "H123" "u0").host = "hostB"
    ∧ findInitiator [[exAddrA]] "ZZZ" = defaultAddress
    ∧ (workerReadPool [[exAddrA]] "ZZZ" "u0").host = "" := by
  decide

/-- C2 (amended): when exactly one topology address's hash equals the
received hash, the worker-side resolution returns that address; when zero
addresses match, it returns the default-constructed (empty) address and the
worker proceeds; multiple matches silently resolve to the first matching
replica of the last matching shard.  No failure is raised at resolution
time. -/
theorem c2_initiator_resolution (shards : List (List Address)) (receivedHash : String) :
    (∀ n, shards.flatten.filter (fun a => a.hash == receivedHash) = [n] →
        findInitiator shards receivedHash = n)
    ∧ (shards.flatten.filter (fun a => a.hash == receivedHash) = [] →
        findInitiator shards receivedHash = defaultAddress) := by
  constructor
  · intro n hn
    exact lastMatchFold_of_unique _ _ _ _ n hn
  · intro h0
    exact lastMatchFold_of_no_match _ _ _ _
      (fun a ha => by simpa using List.filter_eq_nil_iff.mp h0 a ha)

/-- C2 witness: both amended branches evaluated at a concrete topology. -/
theorem c2_witness :
    findInitiator [[exAddrA]] "H123" = exAddrA
    ∧ findInitiator [[exAddrA]] "nope" = defaultAddress :=
  ⟨(c2_initiator_resolution [[exAddrA]] "H123").1 exAddrA (by decide),
   (c2_initiator_resolution [[exAddrA]] "nope").2 (by decide)⟩

/-- C1, counterexample: the rewrite touches only the bucket slot of the
matched invocation, so a query whose text mentions the bucket string
elsewhere still contains it after the rewrite — "no longer contains the
original bucket string" fails for such a query even though the identity hash
was written into the argument position. -/
theorem c1_counterexample :
    (initiatorRead [[exSelf]] 9000 exQueryDup (getTreeHash exTF)).error = none
    ∧ "H123" ∈ (initiatorRead [[exSelf]] 9000 exQueryDup (getTreeHash exTF)).remote_query
    ∧ "real-bucket"
        ∈ (initiatorRead [[exSelf]] 9000 exQueryDup (getTreeHash exTF)).remote_query := by
  decide

/-- C1 (amended): when the initiator executes `read` on a query containing a
table-function invocation whose tree hash equals the captured hash (and no
earlier table expression matches), the rewrite overwrites the second
positional literal of that invocation's first argument with the initiator's
identity hash; the rewritten text contains the hash in that argument
position, and it no longer contains the original bucket string provided that
string occurred only in that argument slot. -/
theorem c1_rewrite_overwrites_bucket (shards : List (List Address)) (tcpPort : Nat)
    (query : SelectQuery) (tree_hash : String × List String)
    (H B a0 : String) (pre post : List TableExpression)
    (tf : TableFunction) (args2 : List String)
    (hself : findSelfHash shards tcpPort = H) (hH : H ≠ "")
    (hq : query.tables = pre ++ { table_function := tf } :: post)
    (hpre : ∀ te ∈ pre, getTreeHash te.table_function ≠ tree_hash)
    (hhit : getTreeHash tf = tree_hash)
    (hargs : tf.arguments = a0 :: B :: args2)
    (hcount : (queryToString query).count B = 1)
    (hBH : B ≠ H) :
    (initiatorRead shards tcpPort query tree_hash).error = none
    ∧ (initiatorRead shards tcpPort query tree_hash).remote_query
        = queryToString
            { tables := pre ++
                { table_function := { name := tf.name, arguments := a0 :: H :: args2 } } :: post,
              rest := query.rest }
    ∧ H ∈ (initiatorRead shards tcpPort query tree_hash).remote_query
    ∧ B ∉ (initiatorRead shards tcpPort query tree_hash).remote_query := by
  have hset : tf.arguments.set 1 H = a0 :: H :: args2 := by rw [hargs]; rfl
  have hrw : rewriteLoop tree_hash (findSelfHash shards tcpPort) query.tables
      = some (pre ++
          { table_function := { name := tf.name, arguments := a0 :: H :: args2 } } :: post) := by
    rw [hself, hq, rewriteLoop_append_of_miss tree_hash H pre _ hpre,
      rewriteLoop_cons_of_hit tree_hash H _ post hhit]
    simp [hset]
  have hne : findSelfHash shards tcpPort ≠ "" := by rw [hself]; exact hH
  have hread := initiatorRead_of_some shards tcpPort query tree_hash _ hne hrw
  rw [hread]
  have hHB : (H == B) = false := beq_eq_false_iff_ne.mpr (Ne.symm hBH)
  have h0 : (queryToString
      { tables := pre ++
          { table_function := { name := tf.name, arguments := a0 :: H :: args2 } } :: post,
        rest := query.rest }).count B = 0 := by
    have hc := hcount
    simp only [queryToString] at hc ⊢
    rw [hq] at hc
    simp only [List.flatMap_append, List.flatMap_cons, List.count_append,
      List.count_cons, hargs, beq_self_eq_true, hHB, Bool.false_eq_true,
      eq_self_iff_true, if_true, if_false] at hc ⊢
    omega
  refine ⟨rfl, rfl, ?_, ?_⟩
  · simp only [queryToString, List.mem_append, List.mem_flatMap]
    right
    refine ⟨{ table_function := { name := tf.name, arguments := a0 :: H :: args2 } }, ?_, ?_⟩
    · exact Or.inr (List.mem_cons_self _ _)
    · simp
  · exact List.count_eq_zero.mp h0

/-- C1 witness: the amended theorem at the concrete query of the spec's
testable property — bucket "real-bucket", initiator hash "H123". -/
theorem c1_witness :
    (initiatorRead [[exSelf]] 9000 exQuery (getTreeHash exTF)).error = none
    ∧ (initiatorRead [[exSelf]] 9000 exQuery (getTreeHash exTF)).remote_query
        = queryToString
            { tables := [{ table_function :=
                { name := "s3Distributed",
                  arguments := ["cluster1", "H123", "CSV"] } }],
              rest := ["SELECT", "*"] }
    ∧ "H123" ∈ (initiatorRead [[exSelf]] 9000 exQuery (getTreeHash exTF)).remote_query
    ∧ "real-bucket" ∉ (initiatorRead [[exSelf]] 9000 exQuery (getTreeHash exTF)).remote_query :=
  c1_rewrite_overwrites_bucket [[exSelf]] 9000 exQuery (getTreeHash exTF)
    "H123" "real-bucket" "cluster1" [] [] exTF ["CSV"]
    (by decide) (by decide) rfl (by simp) rfl rfl (by decide) (by decide)

/-- C5: when no topology entry is both local and listening on the session's
TCP port, the initiator-side `read` throws (`couldNotFindSelf`, a
LOGICAL_ERROR) before creating any outbound connection; when exactly one
such entry exists and its hash is non-empty (as `getHash` always is), that
entry's identity hash is the value of `hash_of_address`, the hash embedded
into the rewritten query, and the self-lookup exception is not thrown. -/
theorem c5_self_resolution (shards : List (List Address)) (tcpPort : Nat)
    (query : SelectQuery) (tree_hash : String × List String) :
    ((∀ a ∈ shards.flatten, (a.is_local && a.port == tcpPort) = false) →
      (initiatorRead shards tcpPort query tree_hash).error = some ReadError.couldNotFindSelf
      ∧ (initiatorRead shards tcpPort query tree_hash).connections = [])
    ∧ (∀ n, shards.flatten.filter (fun a => a.is_local && a.port == tcpPort) = [n] →
        n.hash ≠ "" →
        (initiatorRead shards tcpPort query tree_hash).hash_of_address = n.hash
        ∧ (initiatorRead shards tcpPort query tree_hash).error
            ≠ some ReadError.couldNotFindSelf) := by
  constructor
  · intro h
    have hs : findSelfHash shards tcpPort = "" :=
      lastMatchFold_of_no_match _ _ _ _ h
    simp [initiatorRead, hs]
  · intro n hn hne
    have hs : findSelfHash shards tcpPort = n.hash :=
      lastMatchFold_of_unique _ _ _ _ n hn
    have hs2 : findSelfHash shards tcpPort ≠ "" := by rw [hs]; exact hne
    rcases hrw : rewriteLoop tree_hash (findSelfHash shards tcpPort) query.tables
      with _ | tables2
    · rw [initiatorRead_of_none shards tcpPort query tree_hash hs2 hrw]
      exact ⟨hs, by simp⟩
    · rw [initiatorRead_of_some shards tcpPort query tree_hash tables2 hs2 hrw]
      exact ⟨hs, by simp⟩

/-- C5 witness: the local entry's hash is embedded at a concrete topology;
with no local entry the self-lookup exception is thrown with no connection
created. -/
theorem c5_witness :
    ((initiatorRead [[exSelf]] 9000 exQuery (getTreeHash exTF)).hash_of_address = exSelf.hash
     ∧ (initiatorRead [[exSelf]] 9000 exQuery (getTreeHash exTF)).error
         ≠ some ReadError.couldNotFindSelf)
    ∧ ((initiatorRead [[exAddrA]] 9000 exQuery (getTreeHash exTF)).error
         = some ReadError.couldNotFindSelf
       ∧ (initiatorRead [[exAddrA]] 9000 exQuery (getTreeHash exTF)).connections = []) :=
  ⟨(c5_self_resolution [[exSelf]] 9000 exQuery (getTreeHash exTF)).2 exSelf
      (by decide) (by decide),
   (c5_self_resolution [[exAddrA]] 9000 exQuery (getTreeHash exTF)).1 (by decide)⟩

/-- C6: assuming self-resolution succeeded, the initiator-side `read` throws
the logical-inconsistency error ("No table function", LOGICAL_ERROR) with no
per-replica connection created if and only if no table expression of the
query has a table function whose tree hash equals the precomputed hash. -/
theorem c6_rewrite_inconsistency (shards : List (List Address)) (tcpPort : Nat)
    (query : SelectQuery) (tree_hash : String × List String)
    (h : findSelfHash shards tcpPort ≠ "") :
    ((initiatorRead shards tcpPort query tree_hash).error = some ReadError.noTableFunction
     ∧ (initiatorRead shards tcpPort query tree_hash).connections = [])
    ↔ ∀ te ∈ query.tables, getTreeHash te.table_function ≠ tree_hash := by
  rcases hrw : rewriteLoop tree_hash (findSelfHash shards tcpPort) query.tables
    with _ | tables2
  · rw [initiatorRead_of_none shards tcpPort query tree_hash h hrw]
    constructor
    · intro _
      exact (rewriteLoop_eq_none_iff _ _ _).mp hrw
    · intro _
      exact ⟨rfl, rfl⟩
  · rw [initiatorRead_of_some shards tcpPort query tree_hash tables2 h hrw]
    constructor
    · intro hc
      exact absurd hc.1 (by simp)
    · intro hall
      have hn : rewriteLoop tree_hash (findSelfHash shards tcpPort) query.tables = none :=
        (rewriteLoop_eq_none_iff _ _ _).mpr hall
      rw [hn] at hrw
      exact absurd hrw (by simp)

/-- C6 witness: at a concrete topology and query, the error is raised exactly
when the captured tree hash matches no table function (here: a hash captured
from a different invocation). -/
theorem c6_witness :
    findSelfHash [[exSelf]] 9000 ≠ ""
    ∧ (((initiatorRead [[exSelf]] 9000 exQuery
          (getTreeHash { name := "other", arguments := [] })).error
            = some ReadError.noTableFunction
        ∧ (initiatorRead [[exSelf]] 9000 exQuery
            (getTreeHash { name := "other", arguments := [] })).connections = [])
       ↔ ∀ te ∈ exQuery.tables,
           getTreeHash te.table_function ≠ getTreeHash { name := "other", arguments := [] }) :=
  ⟨by decide,
   c6_rewrite_inconsistency [[exSelf]] 9000 exQuery
     (getTreeHash { name := "other", arguments := [] }) (by decide)⟩

/-- C3, counterexample: a pull already returned the empty string during the
second row request (the channel was drained and `generate` returned the empty
chunk, with 2 pulls performed so far), yet the third row request performs a
further pull over the channel (the pull counter rises to 3): because the
`false` branch of `createOrUpdateInnerSource` leaves the exhausted reader in
`inner`, every subsequent `generate` contacts the channel again. -/
theorem c3_counterexample :
    exS1.events = []
    ∧ (askAboutNextKey exS1).1 = PullResult.ok ""
    ∧ (generate exObjects exS1).1 = GenResult.chunk 0
    ∧ exS2.pulls = 2
    ∧ (generate exObjects exS2).1 = GenResult.chunk 0
    ∧ (generate exObjects exS2).2.pulls = 3 := by
  decide

/-- C3 (amended): once a pull over the task channel has returned the empty
string, every subsequent row request returns an empty chunk; but a further
pull is avoided only when the source never had an inner reader (the first
pull was already empty) — when a reader was active at exhaustion, every
subsequent `generate` performs exactly one further pull over the channel
(which keeps answering with the empty string). -/
theorem c3_post_exhaustion (objects : String → List Nat) (st : SeqSource)
    (h : Exhausted st) :
    (∀ n, (generate objects (genIter objects n st)).1 = GenResult.chunk 0)
    ∧ (st.inner = none → ∀ n, genIter objects n st = st)
    ∧ (∀ s, st.inner = some s → (generate objects st).2.pulls = st.pulls + 1) := by
  refine ⟨?_, ?_, (generate_exhausted_step objects st h).2.2.2.2⟩
  · intro n
    exact (generate_exhausted_step objects _ (genIter_exhausted objects st h n)).1
  · intro hnone
    exact genIter_of_inner_none objects st hnone

/-- C3 witness: the amended claim at the concrete post-exhaustion state
`exS2` (channel drained, reader exhausted). -/
theorem c3_witness :
    (∀ n, (generate exObjects (genIter exObjects n exS2)).1 = GenResult.chunk 0)
    ∧ (exS2.inner = none → ∀ n, genIter exObjects n exS2 = exS2)
    ∧ (∀ s, exS2.inner = some s → (generate exObjects exS2).2.pulls = exS2.pulls + 1) :=
  c3_post_exhaustion exObjects exS2 ⟨rfl, Or.inr ⟨_, rfl, rfl⟩⟩

/-- C4: for any set of distinct (non-empty) task keys and any interleaving of
concurrently-pulling workers long enough to drain them, the sequence of
replies is exactly the key list followed by empty termination replies: each
key is returned by exactly one pull, two pulls never receive the same key,
and every pull at a position past the key count observes the empty reply. -/
theorem c4_exactly_once (keys : List String) (sched : List Nat)
    (hnodup : keys.Nodup) (hne : "" ∉ keys) (hlen : keys.length ≤ sched.length) :
    (serveAll keys sched).map Prod.snd
      = keys ++ List.replicate (sched.length - keys.length) ""
    ∧ (∀ k ∈ keys, ((serveAll keys sched).map Prod.snd).count k = 1)
    ∧ (∀ i, keys.length ≤ i → i < sched.length →
        ∀ d, ((serveAll keys sched).map Prod.snd).getD i d = "") := by
  have h1 : (serveAll keys sched).map Prod.snd
      = keys ++ List.replicate (sched.length - keys.length) "" := by
    rw [serveAll_snd, List.take_of_length_le hlen]
  refine ⟨h1, ?_, ?_⟩
  · intro k hk
    have hkne : ("" == k) = false :=
      beq_eq_false_iff_ne.mpr (fun hcontra => hne (hcontra ▸ hk))
    rw [h1, List.count_append, List.count_eq_one_of_mem hnodup hk,
      List.count_replicate, hkne]
    rfl
  · intro i hi hlt d
    have hidx : i - keys.length < sched.length - keys.length := by omega
    rw [h1]
    simp [List.getD, List.getElem?_append_right hi, List.getElem?_replicate, hidx]

/-- C4 witness: keys "a","b" served to three interleaved workers: replies are
"a", "b", then the empty termination reply. -/
theorem c4_witness :
    (serveAll ["a", "b"] [7, 8, 9]).map Prod.snd = ["a", "b", ""]
    ∧ (∀ k ∈ (["a", "b"] : List String),
        ((serveAll ["a", "b"] [7, 8, 9]).map Prod.snd).count k = 1)
    ∧ (∀ i, 2 ≤ i → i < 3 → ∀ d,
        ((serveAll ["a", "b"] [7, 8, 9]).map Prod.snd).getD i d = "") := by
  have h := c4_exactly_once ["a", "b"] [7, 8, 9] (by decide) (by decide) (by decide)
  exact ⟨by simpa using h.1, h.2.1, h.2.2⟩

/-- C7: whenever a pull returns the empty string, `createOrUpdateInnerSource`
returns `false` without constructing a reader (`inner` and `readers_created`
unchanged), `generate` yields the empty chunk, and no exception is raised;
a source over a channel with zero keys starts with no inner reader and every
row request returns the empty chunk (zero rows, not an error). -/
theorem c7_empty_reply_termination (objects : String → List Nat) (st : SeqSource)
    (qid : String) (cli : ClientAuthentificationBuilder) (s3b : StorageS3SourceBuilder)
    (h : (askAboutNextKey st).1 = PullResult.ok "") :
    (createOrUpdateInnerSource objects st).1 = CreateResult.value false
    ∧ (createOrUpdateInnerSource objects st).2.inner = st.inner
    ∧ (createOrUpdateInnerSource objects st).2.readers_created = st.readers_created
    ∧ (∀ s, st.inner = some s → s.chunks = [] →
        (generate objects st).1 = GenResult.chunk 0)
    ∧ (mkSeqSource objects qid cli s3b []).2.inner = none
    ∧ (∀ n, (generate objects
        (genIter objects n (mkSeqSource objects qid cli s3b []).2)).1
          = GenResult.chunk 0) := by
  have hc : (createOrUpdateInnerSource objects st).1 = CreateResult.value false
      ∧ (createOrUpdateInnerSource objects st).2.inner = st.inner
      ∧ (createOrUpdateInnerSource objects st).2.readers_created = st.readers_created := by
    rcases hev : st.events with _ | ⟨ev, restEvents⟩
    · simp [createOrUpdateInnerSource, askAboutNextKey_of_nil st hev]
    · rcases ev with ⟨ptype, next_task⟩ | e
      · have htask : next_task = "" := by
          have := h
          simp [askAboutNextKey, hev] at this
          exact this
        simp [createOrUpdateInnerSource, askAboutNextKey, hev, htask]
      · exact absurd h (by simp [askAboutNextKey, hev])
  have hmk : (mkSeqSource objects qid cli s3b []).2.inner = none := by
    rw [mkSeqSource, createOrUpdate_of_nil objects
      { initial_query_id := qid, cli_builder := cli, s3_source_builder := s3b,
        inner := none, events := [], pulls := 0, readers_created := 0, log := [] } rfl]
  refine ⟨hc.1, hc.2.1, hc.2.2, ?_, hmk, ?_⟩
  · intro s hs hch
    rcases hpair : createOrUpdateInnerSource objects st with ⟨res, st2⟩
    have hres : res = CreateResult.value false := by
      have h2 := hc.1
      rw [hpair] at h2
      exact h2
    subst hres
    simp only [generate, hs, sourceGenerate_of_nil s hch, setInner_self st s hs,
      eq_self_iff_true, if_true, hpair]
  · intro n
    rw [genIter_of_inner_none objects _ hmk n,
      generate_of_inner_none objects _ hmk]

/-- C7 witness: the empty-reply branches evaluated at a concrete drained
state with an exhausted reader, and at a zero-key source. -/
theorem c7_witness :
    (createOrUpdateInnerSource exObjects exS2).1 = CreateResult.value false
    ∧ (createOrUpdateInnerSource exObjects exS2).2.inner = exS2.inner
    ∧ (createOrUpdateInnerSource exObjects exS2).2.readers_created = exS2.readers_created
    ∧ (∀ s, exS2.inner = some s → s.chunks = [] →
        (generate exObjects exS2).1 = GenResult.chunk 0)
    ∧ (mkSeqSource exObjects "q1" exCli exS3B []).2.inner = none
    ∧ (∀ n, (generate exObjects
        (genIter exObjects n (mkSeqSource exObjects "q1" exCli exS3B []).2)).1
          = GenResult.chunk 0) :=
  c7_empty_reply_termination exObjects exS2 "q1" exCli exS3B (by decide)

/-- C8: a transport-level failure during a pull is appended to the log and
re-raised: `askAboutNextKey` returns the exception (never the empty-string
termination value, nor any key), `createOrUpdateInnerSource` propagates it,
and a row request that triggered the pull fails with the exception instead
of reporting an empty chunk. -/
theorem c8_transport_failure (objects : String → List Nat) (st : SeqSource)
    (e : Nat) (restEvents : List PullEvent)
    (h : st.events = PullEvent.transportError e :: restEvents) :
    (askAboutNextKey st).1 = PullResult.err e
    ∧ (askAboutNextKey st).2.log = st.log ++ [e]
    ∧ (∀ task, (askAboutNextKey st).1 ≠ PullResult.ok task)
    ∧ (createOrUpdateInnerSource objects st).1 = CreateResult.raised e
    ∧ (∀ s, st.inner = some s → s.chunks = [] →
        (generate objects st).1 = GenResult.raised e) := by
  have hask : askAboutNextKey st
      = (PullResult.err e,
         { st with events := restEvents, pulls := st.pulls + 1,
                   log := st.log ++ [e] }) := by
    simp [askAboutNextKey, h]
  have hcreate : createOrUpdateInnerSource objects st
      = (CreateResult.raised e,
         { st with events := restEvents, pulls := st.pulls + 1,
                   log := st.log ++ [e] }) := by
    simp [createOrUpdateInnerSource, hask]
  refine ⟨by rw [hask], by rw [hask], by rw [hask]; intro task; simp, by rw [hcreate], ?_⟩
  intro s hs hch
  simp only [generate, hs, sourceGenerate_of_nil s hch, setInner_self st s hs,
    eq_self_iff_true, if_true, hcreate]

/-- C8 witness: a concrete transport failure (code 210) on the next pull is
logged, re-raised, and fails the row request of a worker whose reader is
exhausted. -/
theorem c8_witness :
    (askAboutNextKey (exState [PullEvent.transportError 210]
        (some { client_auth := mkClientAuth exCli "k1", builder := exS3B,
                key := "k1", chunks := [] }))).1 = PullResult.err 210
    ∧ (askAboutNextKey (exState [PullEvent.transportError 210]
        (some { client_auth := mkClientAuth exCli "k1", builder := exS3B,
                key := "k1", chunks := [] }))).2.log
        = (exState [PullEvent.transportError 210]
            (some { client_auth := mkClientAuth exCli "k1", builder := exS3B,
                    key := "k1", chunks := [] })).log ++ [210]
    ∧ (∀ task, (askAboutNextKey (exState [PullEvent.transportError 210]
        (some { client_auth := mkClientAuth exCli "k1", builder := exS3B,
                key := "k1", chunks := [] }))).1 ≠ PullResult.ok task)
    ∧ (createOrUpdateInnerSource exObjects (exState [PullEvent.transportError 210]
        (some { client_auth := mkClientAuth exCli "k1", builder := exS3B,
                key := "k1", chunks := [] }))).1 = CreateResult.raised 210
    ∧ (∀ s, (exState [PullEvent.transportError 210]
        (some { client_auth := mkClientAuth exCli "k1", builder := exS3B,
                key := "k1", chunks := [] })).inner = some s → s.chunks = [] →
        (generate exObjects (exState [PullEvent.transportError 210]
          (some { client_auth := mkClientAuth exCli "k1", builder := exS3B,
                  key := "k1", chunks := [] }))).1 = GenResult.raised 210) :=
  c8_transport_failure exObjects
    (exState [PullEvent.transportError 210]
      (some { client_auth := mkClientAuth exCli "k1", builder := exS3B,
              key := "k1", chunks := [] })) 210 [] rfl

/-- C9: for every non-empty key returned by a pull,
`createOrUpdateInnerSource` returns `true` after replacing `inner` — whatever
reader it previously held — with a fresh reader whose client authorization is
built from the immutable auth context (access key id, secret access key, max
connections) combined with that key's URI, over the shared immutable source
descriptor; the reader-construction counter rises by one. -/
theorem c9_fresh_reader (objects : String → List Nat) (st : SeqSource)
    (ptype : Nat) (k : String) (restEvents : List PullEvent)
    (h : st.events = PullEvent.packet ptype k :: restEvents) (hk : k ≠ "") :
    (createOrUpdateInnerSource objects st).1 = CreateResult.value true
    ∧ (createOrUpdateInnerSource objects st).2.inner
        = some { client_auth := mkClientAuth st.cli_builder k,
                 builder := st.s3_source_builder, key := k, chunks := objects k }
    ∧ (createOrUpdateInnerSource objects st).2.readers_created
        = st.readers_created + 1 := by
  simp [createOrUpdateInnerSource, askAboutNextKey, h, hk]

/-- C9 witness: pulling key "k1" over a state that still holds an old reader
for key "k0" installs a fresh reader for "k1" with an authorization derived
from the auth context and "k1". -/
theorem c9_witness :
    (createOrUpdateInnerSource exObjects (exState [PullEvent.packet 10 "k1"]
        (some { client_auth := mkClientAuth exCli "k0", builder := exS3B,
                key := "k0", chunks := [] }))).1 = CreateResult.value true
    ∧ (createOrUpdateInnerSource exObjects (exState [PullEvent.packet 10 "k1"]
        (some { client_auth := mkClientAuth exCli "k0", builder := exS3B,
                key := "k0", chunks := [] }))).2.inner
        = some { client_auth :=
                   mkClientAuth (exState [PullEvent.packet 10 "k1"]
                     (some { client_auth := mkClientAuth exCli "k0", builder := exS3B,
                             key := "k0", chunks := [] })).cli_builder "k1",
                 builder := (exState [PullEvent.packet 10 "k1"]
                     (some { client_auth := mkClientAuth exCli "k0", builder := exS3B,
                             key := "k0", chunks := [] })).s3_source_builder,
                 key := "k1", chunks := exObjects "k1" }
    ∧ (createOrUpdateInnerSource exObjects (exState [PullEvent.packet 10 "k1"]
        (some { client_auth := mkClientAuth exCli "k0", builder := exS3B,
                key := "k0", chunks := [] }))).2.readers_created
        = (exState [PullEvent.packet 10 "k1"]
            (some { client_auth := mkClientAuth exCli "k0", builder := exS3B,
                    key := "k0", chunks := [] })).readers_created + 1 :=
  c9_fresh_reader exObjects
    (exState [PullEvent.packet 10 "k1"]
      (some { client_auth := mkClientAuth exCli "k0", builder := exS3B,
              key := "k0", chunks := [] })) 10 "k1" [] rfl (by decide)

/-- C10: the pull never validates the reply's packet type: the line
`assert(packet.type = Protocol::Server::NextTaskReply)` assigns instead of
comparing, so it always succeeds in debug builds and is absent in release
builds; `askAboutNextKey` therefore returns `packet.next_task` for every
received packet regardless of its type field, and a mis-typed reply is
silently treated as a task reply. -/
theorem c10_no_packet_type_check (st : SeqSource) (ptype : Nat)
    (next_task : String) (restEvents : List PullEvent)
    (h : st.events = PullEvent.packet ptype next_task :: restEvents) :
    (askAboutNextKey st).1 = PullResult.ok next_task := by
  simp [askAboutNextKey, h]

/-- C10 witness: a packet with a wrong type field (999) on the channel is
still accepted and its payload returned as the next task. -/
theorem c10_witness :
    (askAboutNextKey (exState [PullEvent.packet 999 "mytask"] none)).1
      = PullResult.ok "mytask" :=
  c10_no_packet_type_check (exState [PullEvent.packet 999 "mytask"] none)
    999 "mytask" [] rfl

end DB
